import Mathlib

/-!
# Verification of the Account REST microservice

A shallow embedding of the account service: the router/handler layer is
translated from `service/routes.py`; the Account record layer
(`service/models.py` is imported by the routes but its source is not part of
this development) is modelled from the specification's description of
`deserialize`, `serialize`, `create`, `find`, `update` and `all`.
-/

set_option autoImplicit false

namespace AccountService

/-- JSON values, as exchanged on the wire. -/
inductive Json where
  | null : Json
  | str (s : String) : Json
  | num (n : Int) : Json
  | obj (kvs : List (String × Json)) : Json
  | arr (xs : List Json) : Json
deriving Repr

/-- First value bound to key `k` in an association list, if any. -/
def lookupKey (k : String) : List (String × Json) → Option Json
  | [] => none
  | (k2, v) :: rest => if k2 = k then some v else lookupKey k rest

/-- Field access on a JSON value: `some` only on objects holding the key. -/
def Json.lookup (j : Json) (k : String) : Option Json :=
  match j with
  | Json.obj kvs => lookupKey k kvs
  | _ => none

/-- The Account entity: `id` is store-assigned; the remaining attributes hold
the JSON values assigned by deserialization. -/
structure Account where
  id : Nat
  name : Json
  email : Json
  address : Json
  phone_number : Json
  date_joined : Json
deriving Repr

/-- Modelled from the spec: `Account()` — a fresh in-memory record with no id
assigned yet, optional fields empty and `date_joined` defaulting to the
creation date (supplied by the environment as `today`). -/
def Account.new (today : String) : Account :=
  { id := 0
  , name := Json.null
  , email := Json.null
  , address := Json.null
  , phone_number := Json.null
  , date_joined := Json.str today }

/-- Modelled from the spec: `Account.deserialize(payload)` (from
`service/models.py`, not part of this source tree) — validates that the
payload is a mapping containing at least `name` and `email`, assigns the
fields onto the record, fails with a data-validation error otherwise, and
never accepts a client-supplied `id` override. -/
def Account.deserialize (a : Account) (payload : Json) : Except String Account :=
  match payload with
  | Json.obj kvs =>
    match lookupKey "name" kvs, lookupKey "email" kvs with
    | some n, some e =>
      Except.ok
        { a with
          name := n
        , email := e
        , address := (lookupKey "address" kvs).getD a.address
        , phone_number := (lookupKey "phone_number" kvs).getD a.phone_number
        , date_joined := (lookupKey "date_joined" kvs).getD a.date_joined }
    | _, _ => Except.error "missing required field name or email"
  | _ => Except.error "payload is not a JSON object"

/-- Modelled from the spec: `Account.serialize()` (from `service/models.py`,
not part of this source tree) — a JSON mapping of all fields. -/
def Account.serialize (a : Account) : Json :=
  Json.obj
    [ ("id", Json.num (a.id : Int))
    , ("name", a.name)
    , ("email", a.email)
    , ("address", a.address)
    , ("phone_number", a.phone_number)
    , ("date_joined", a.date_joined) ]

/-- The persistent store: the stored rows plus the next id the store will
assign on creation. -/
structure Store where
  accounts : List Account
  nextId : Nat
deriving Repr

/-- A store is well formed when the next id to assign is positive and larger
than every id already stored (ids are unique, store-assigned, increasing). -/
def Store.wf (s : Store) : Prop :=
  1 ≤ s.nextId ∧ ∀ a ∈ s.accounts, a.id < s.nextId

/-- The empty store, as after table creation. -/
def Store.empty : Store := { accounts := [], nextId := 1 }

/-- Modelled from the spec: `Account.create()` — inserts the record into the
store, which assigns it the next fresh id. Returns the created record and
the new store state. -/
def Store.create (s : Store) (a : Account) : Account × Store :=
  let created := { a with id := s.nextId }
  (created, { accounts := s.accounts ++ [created], nextId := s.nextId + 1 })

/-- Modelled from the spec: `Account.find(id)` — the record matching `id`, or
an absent result if none exists; never raises for not-found. -/
def Store.find (s : Store) (i : Nat) : Option Account :=
  s.accounts.find? (fun a => a.id = i)

/-- Modelled from the spec: `Account.update()` — persists in-place changes to
the existing record identified by its `id`. -/
def Store.update (s : Store) (a : Account) : Store :=
  { s with accounts := s.accounts.map (fun b => if b.id = a.id then a else b) }

/-- Modelled from the spec: `Account.all()` — every record currently stored. -/
def Store.all (s : Store) : List Account :=
  s.accounts

/-- HTTP methods the service can receive. -/
inductive Method where
  | GET | POST | PUT | DELETE
deriving Repr, DecidableEq

/-- The URL paths defined by the routes in `service/routes.py`: `/health`,
`/`, `/accounts` and `/accounts/<int:account_id>`. -/
inductive RoutePath where
  | health : RoutePath
  | root : RoutePath
  | accounts : RoutePath
  | accountId (i : Nat) : RoutePath
deriving Repr, DecidableEq

/-- An incoming HTTP request, reduced to what the handlers consume. -/
structure Request where
  method : Method
  path : RoutePath
  contentType : Option String
  body : Json
deriving Repr

/-- An HTTP response: status code, JSON body, optional Location header. -/
structure Response where
  status : Nat
  body : Json
  location : Option String := none
deriving Repr

/-- Python truthiness of `request.headers.get("Content-Type")`: `None` and
the empty string are falsy. -/
def truthy : Option String → Bool
  | none => false
  | some s => s ≠ ""

/-- `check_content_type(media_type)` from `service/routes.py`: passes exactly
when the Content-Type header is truthy and equal to `media_type`; otherwise
the request is aborted with 415. Returns `true` when the check passes. -/
def check_content_type (media_type : String) (content_type : Option String) : Bool :=
  truthy content_type && content_type == some media_type

/-- `health()` from `service/routes.py`. -/
def health : Response :=
  { status := 200, body := Json.obj [("status", Json.str "OK")] }

/-- `index()` from `service/routes.py`. -/
def index : Response :=
  { status := 200
  , body := Json.obj
      [ ("name", Json.str "Account REST API Service")
      , ("version", Json.str "1.0") ] }

/-- `create_accounts()` from `service/routes.py`: checks the content type
(415 on failure), deserializes the body into a fresh `Account` (400 on a
validation error), persists it and answers 201 with the serialized record
and a `Location` header that the source leaves at the placeholder `"/"`. -/
def create_accounts (s : Store) (today : String) (req : Request) : Response × Store :=
  if check_content_type "application/json" req.contentType then
    match (Account.new today).deserialize req.body with
    | Except.error _ => ({ status := 400, body := Json.null }, s)
    | Except.ok acct =>
      let res := s.create acct
      ( { status := 201
        , body := res.1.serialize
        , location := some "/" }
      , res.2 )
  else
    ({ status := 415, body := Json.null }, s)

/-- `list_accounts()` from `service/routes.py`: 200 with the serialized list
of all accounts. -/
def list_accounts (s : Store) : Response × Store :=
  ({ status := 200, body := Json.arr ((s.all).map Account.serialize) }, s)

/-- `get_accounts(account_id)` from `service/routes.py`: 404 when `find`
comes back empty, otherwise 200 with the serialized record. -/
def get_accounts (s : Store) (i : Nat) : Response × Store :=
  match s.find i with
  | none => ({ status := 404, body := Json.null }, s)
  | some acct => ({ status := 200, body := acct.serialize }, s)

/-- `update_accounts(account_id)` from `service/routes.py`: 404 when `find`
comes back empty; otherwise deserializes the request body over the found
record (400 on a validation error), persists it with `update()` and answers
200 with the serialized record. The handler never reads the Content-Type
header. -/
def update_accounts (s : Store) (i : Nat) (body : Json) : Response × Store :=
  match s.find i with
  | none => ({ status := 404, body := Json.null }, s)
  | some acct =>
    match acct.deserialize body with
    | Except.error _ => ({ status := 400, body := Json.null }, s)
    | Except.ok updated =>
      ({ status := 200, body := updated.serialize }, s.update updated)

/-- The methods mapped on each defined path in `service/routes.py`: GET on
`/health` and `/`, POST and GET on `/accounts`, GET and PUT on
`/accounts/<int:account_id>`. No DELETE handler is defined anywhere. -/
def allowedMethods : RoutePath → List Method
  | RoutePath.health => [Method.GET]
  | RoutePath.root => [Method.GET]
  | RoutePath.accounts => [Method.POST, Method.GET]
  | RoutePath.accountId _ => [Method.GET, Method.PUT]

/-- The router: dispatches a request on a defined path to its handler; a
method that is not mapped on the path is answered with 405 by the framework
and touches nothing. -/
def dispatch (s : Store) (today : String) (req : Request) : Response × Store :=
  match req.path, req.method with
  | RoutePath.health, Method.GET => (health, s)
  | RoutePath.root, Method.GET => (index, s)
  | RoutePath.accounts, Method.POST => create_accounts s today req
  | RoutePath.accounts, Method.GET => list_accounts s
  | RoutePath.accountId i, Method.GET => get_accounts s i
  | RoutePath.accountId i, Method.PUT => update_accounts s i req.body
  | _, _ => ({ status := 405, body := Json.null }, s)

/-- A POST /accounts request with the exact `application/json` media type. -/
def postJson (body : Json) : Request :=
  { method := Method.POST, path := RoutePath.accounts
  , contentType := some "application/json", body := body }

/-- The Content-Type check passes on the exact `application/json` header. -/
theorem check_content_type_json_ok :
    check_content_type "application/json" (some "application/json") = true := by
  decide

/-- A sample stored account used to evaluate the handlers on concrete data. -/
def sampleAccount : Account :=
  { id := 1
  , name := Json.str "John Doe"
  , email := Json.str "john@example.com"
  , address := Json.str "1 Main St"
  , phone_number := Json.str "555-1234"
  , date_joined := Json.str "2020-01-01" }

/-- A sample store holding exactly `sampleAccount`. -/
def sampleStore : Store := { accounts := [sampleAccount], nextId := 2 }

/-- A sample valid creation payload carrying every field. -/
def samplePayload : Json :=
  Json.obj
    [ ("name", Json.str "John Doe")
    , ("email", Json.str "john@example.com")
    , ("address", Json.str "1 Main St")
    , ("phone_number", Json.str "555-1234")
    , ("date_joined", Json.str "2020-01-01") ]

/-- C9: every read handler — GET /health, GET /, GET /accounts and
GET /accounts/{id} — leaves the store unchanged: the state returned by the
dispatcher equals the state it was given. -/
theorem read_handlers_preserve_store (s : Store) (today : String)
    (ct : Option String) (body : Json) (i : Nat) :
    (dispatch s today
      { method := Method.GET, path := RoutePath.health
      , contentType := ct, body := body }).2 = s ∧
    (dispatch s today
      { method := Method.GET, path := RoutePath.root
      , contentType := ct, body := body }).2 = s ∧
    (dispatch s today
      { method := Method.GET, path := RoutePath.accounts
      , contentType := ct, body := body }).2 = s ∧
    (dispatch s today
      { method := Method.GET, path := RoutePath.accountId i
      , contentType := ct, body := body }).2 = s := by
  refine ⟨rfl, rfl, rfl, ?_⟩
  show (get_accounts s i).2 = s
  unfold get_accounts
  cases s.find i <;> rfl

/-- C6: GET /accounts/{id} answers 200 with the serialized record when the
id is stored and 404 when it is not; the lookup itself is total (`find`
returns an optional result and the handler translates the empty case to the
404, no error is raised). -/
theorem get_account_found_or_404 (s : Store) (today : String)
    (ct : Option String) (body : Json) (i : Nat) :
    (s.find i = none →
      (dispatch s today
        { method := Method.GET, path := RoutePath.accountId i
        , contentType := ct, body := body }).1.status = 404) ∧
    (∀ a, s.find i = some a →
      (dispatch s today
        { method := Method.GET, path := RoutePath.accountId i
        , contentType := ct, body := body }).1.status = 200 ∧
      (dispatch s today
        { method := Method.GET, path := RoutePath.accountId i
        , contentType := ct, body := body }).1.body = a.serialize) := by
  constructor
  · intro h
    show (get_accounts s i).1.status = 404
    unfold get_accounts
    rw [h]
  · intro a h
    have : get_accounts s i = ({ status := 200, body := a.serialize }, s) := by
      unfold get_accounts
      rw [h]
    exact ⟨by show (get_accounts s i).1.status = 200; rw [this],
           by show (get_accounts s i).1.body = a.serialize; rw [this]⟩

/-- C6 witness: on `sampleStore`, GET /accounts/1 answers 200 and
GET /accounts/7 answers 404. -/
theorem get_account_found_or_404_witness :
    (dispatch sampleStore "2020-01-01"
      { method := Method.GET, path := RoutePath.accountId 1
      , contentType := none, body := Json.null }).1.status = 200 ∧
    (dispatch sampleStore "2020-01-01"
      { method := Method.GET, path := RoutePath.accountId 7
      , contentType := none, body := Json.null }).1.status = 404 :=
  ⟨((get_account_found_or_404 sampleStore "2020-01-01" none Json.null 1).2
      sampleAccount rfl).1,
   (get_account_found_or_404 sampleStore "2020-01-01" none Json.null 7).1 rfl⟩

/-- C5: a POST /accounts request whose Content-Type header is absent or not
exactly `application/json` is answered 415 and the store is unchanged,
whatever the body. -/
theorem post_wrong_content_type_415 (s : Store) (today : String)
    (ct : Option String) (body : Json)
    (h : ct ≠ some "application/json") :
    (dispatch s today
      { method := Method.POST, path := RoutePath.accounts
      , contentType := ct, body := body }).1.status = 415 ∧
    (dispatch s today
      { method := Method.POST, path := RoutePath.accounts
      , contentType := ct, body := body }).2 = s := by
  have hcheck : check_content_type "application/json" ct = false := by
    unfold check_content_type
    have : (ct == some "application/json") = false := by
      cases ct with
      | none => rfl
      | some c =>
        have hc : c ≠ "application/json" := fun hc => h (by rw [hc])
        simp [hc]
    rw [this, Bool.and_false]
  constructor <;>
    · show _ = _
      unfold dispatch create_accounts
      rw [hcheck]
      rfl

/-- C5 witness: POSTing the valid sample payload with Content-Type
`test/html`, and with no Content-Type at all, both answer 415 and leave the
empty store empty. -/
theorem post_wrong_content_type_415_witness :
    ((dispatch Store.empty "2020-01-01"
      { method := Method.POST, path := RoutePath.accounts
      , contentType := some "test/html", body := samplePayload }).1.status = 415 ∧
    (dispatch Store.empty "2020-01-01"
      { method := Method.POST, path := RoutePath.accounts
      , contentType := some "test/html", body := samplePayload }).2 = Store.empty) ∧
    (dispatch Store.empty "2020-01-01"
      { method := Method.POST, path := RoutePath.accounts
      , contentType := none, body := samplePayload }).1.status = 415 :=
  ⟨post_wrong_content_type_415 Store.empty "2020-01-01" (some "test/html")
      samplePayload (by simp),
   (post_wrong_content_type_415 Store.empty "2020-01-01" none
      samplePayload (by simp)).1⟩

/-- C8: a request whose method is not mapped on its (defined) path is
answered 405 and the store is unchanged. -/
theorem unmapped_method_405 (s : Store) (today : String) (req : Request)
    (h : req.method ∉ allowedMethods req.path) :
    (dispatch s today req).1.status = 405 ∧ (dispatch s today req).2 = s := by
  obtain ⟨m, p, ct, body⟩ := req
  cases p <;> cases m <;> simp_all [allowedMethods, dispatch]

/-- C8 witness: DELETE on /accounts (no id) is answered 405 and leaves the
sample store unchanged. -/
theorem unmapped_method_405_witness :
    (dispatch sampleStore "2020-01-01"
      { method := Method.DELETE, path := RoutePath.accounts
      , contentType := none, body := Json.null }).1.status = 405 ∧
    (dispatch sampleStore "2020-01-01"
      { method := Method.DELETE, path := RoutePath.accounts
      , contentType := none, body := Json.null }).2 = sampleStore :=
  unmapped_method_405 sampleStore "2020-01-01"
    { method := Method.DELETE, path := RoutePath.accounts
    , contentType := none, body := Json.null } (by decide)

/-- C10: the PUT /accounts/{id} handler performs no Content-Type validation:
its status is always one of 200, 400 and 404 — never 415 — and the
dispatcher's answer to a PUT is identical for any two Content-Type headers,
the body going straight to deserialization. -/
theorem put_ignores_content_type (s : Store) (today : String) (i : Nat)
    (ct ct2 : Option String) (body : Json) :
    ((dispatch s today
      { method := Method.PUT, path := RoutePath.accountId i
      , contentType := ct, body := body }).1.status = 200 ∨
    (dispatch s today
      { method := Method.PUT, path := RoutePath.accountId i
      , contentType := ct, body := body }).1.status = 400 ∨
    (dispatch s today
      { method := Method.PUT, path := RoutePath.accountId i
      , contentType := ct, body := body }).1.status = 404) ∧
    dispatch s today
      { method := Method.PUT, path := RoutePath.accountId i
      , contentType := ct, body := body } =
    dispatch s today
      { method := Method.PUT, path := RoutePath.accountId i
      , contentType := ct2, body := body } := by
  constructor
  · cases h : s.find i with
    | none => right; right; simp [dispatch, update_accounts, h]
    | some a =>
      cases hd : a.deserialize body with
      | error msg => right; left; simp [dispatch, update_accounts, h, hd]
      | ok u => left; simp [dispatch, update_accounts, h, hd]
  · rfl

/-- C1: POSTing a JSON mapping holding at least `name` and `email` with the
exact `application/json` media type answers 201; the body echoes the
payload's `name`, `email` and, whenever supplied, `address`, `phone_number`
and `date_joined`; and the body's `id` is the store's next id — a positive
integer assigned to no previously stored account. -/
theorem create_valid_payload_201 (s : Store) (today : String) (body : Json)
    (n e : Json) (hwf : s.wf)
    (hn : body.lookup "name" = some n) (he : body.lookup "email" = some e) :
    (dispatch s today (postJson body)).1.status = 201 ∧
    (dispatch s today (postJson body)).1.body.lookup "name" = some n ∧
    (dispatch s today (postJson body)).1.body.lookup "email" = some e ∧
    (∀ v, body.lookup "address" = some v →
      (dispatch s today (postJson body)).1.body.lookup "address" = some v) ∧
    (∀ v, body.lookup "phone_number" = some v →
      (dispatch s today (postJson body)).1.body.lookup "phone_number" = some v) ∧
    (∀ v, body.lookup "date_joined" = some v →
      (dispatch s today (postJson body)).1.body.lookup "date_joined" = some v) ∧
    (dispatch s today (postJson body)).1.body.lookup "id" =
      some (Json.num (s.nextId : Int)) ∧
    1 ≤ s.nextId ∧ (∀ a ∈ s.accounts, a.id ≠ s.nextId) := by
  cases body with
  | null => simp [Json.lookup] at hn
  | str x => simp [Json.lookup] at hn
  | num x => simp [Json.lookup] at hn
  | arr xs => simp [Json.lookup] at hn
  | obj kvs =>
    have hn' : lookupKey "name" kvs = some n := hn
    have he' : lookupKey "email" kvs = some e := he
    have key : dispatch s today (postJson (Json.obj kvs)) =
        ( { status := 201
          , body := Json.obj
              [ ("id", Json.num (s.nextId : Int))
              , ("name", n)
              , ("email", e)
              , ("address", (lookupKey "address" kvs).getD Json.null)
              , ("phone_number", (lookupKey "phone_number" kvs).getD Json.null)
              , ("date_joined",
                  (lookupKey "date_joined" kvs).getD (Json.str today)) ]
          , location := some "/" }
        , { accounts := s.accounts ++
              [{ id := s.nextId
               , name := n
               , email := e
               , address := (lookupKey "address" kvs).getD Json.null
               , phone_number := (lookupKey "phone_number" kvs).getD Json.null
               , date_joined :=
                   (lookupKey "date_joined" kvs).getD (Json.str today) }]
          , nextId := s.nextId + 1 } ) := by
      show create_accounts s today (postJson (Json.obj kvs)) = _
      unfold create_accounts
      rw [show (postJson (Json.obj kvs)).contentType = some "application/json"
            from rfl, check_content_type_json_ok]
      simp only [if_true]
      rw [show (postJson (Json.obj kvs)).body = Json.obj kvs from rfl]
      simp only [Account.deserialize]
      rw [hn', he']
      simp [Store.create, Account.serialize, Account.new]
    rw [key]
    refine ⟨rfl, ?_, ?_, ?_, ?_, ?_, ?_, hwf.1, ?_⟩
    · simp [Json.lookup, lookupKey]
    · simp [Json.lookup, lookupKey]
    · intro v hv
      have hv' : lookupKey "address" kvs = some v := hv
      simp [Json.lookup, lookupKey, hv']
    · intro v hv
      have hv' : lookupKey "phone_number" kvs = some v := hv
      simp [Json.lookup, lookupKey, hv']
    · intro v hv
      have hv' : lookupKey "date_joined" kvs = some v := hv
      simp [Json.lookup, lookupKey, hv']
    · simp [Json.lookup, lookupKey]
    · intro a ha
      exact Nat.ne_of_lt (hwf.2 a ha)

/-- C1 witness: POSTing the full sample payload on the well-formed empty
store answers 201 and echoes the name, and the assigned id 1 is fresh. -/
theorem create_valid_payload_201_witness :
    (dispatch Store.empty "2020-01-01" (postJson samplePayload)).1.status = 201 ∧
    (dispatch Store.empty "2020-01-01" (postJson samplePayload)).1.body.lookup
      "name" = some (Json.str "John Doe") :=
  have h := create_valid_payload_201 Store.empty "2020-01-01" samplePayload
    (Json.str "John Doe") (Json.str "john@example.com")
    ⟨Nat.le_refl 1, by simp [Store.empty]⟩ rfl rfl
  ⟨h.1, h.2.1⟩

/-- C4: POSTing with the exact `application/json` media type but a body that
is missing `name` or missing `email` (in particular any body that is not a
JSON mapping) answers 400 and leaves the store unchanged. -/
theorem create_missing_field_400 (s : Store) (today : String) (body : Json)
    (h : body.lookup "name" = none ∨ body.lookup "email" = none) :
    (dispatch s today (postJson body)).1.status = 400 ∧
    (dispatch s today (postJson body)).2 = s := by
  have hdes : ∃ msg, (Account.new today).deserialize body =
      Except.error msg := by
    cases body with
    | null => exact ⟨_, rfl⟩
    | str x => exact ⟨_, rfl⟩
    | num x => exact ⟨_, rfl⟩
    | arr xs => exact ⟨_, rfl⟩
    | obj kvs =>
      simp only [Account.deserialize]
      rcases h with h | h
      · have h' : lookupKey "name" kvs = none := h
        rw [h']
        cases lookupKey "email" kvs <;> exact ⟨_, rfl⟩
      · have h' : lookupKey "email" kvs = none := h
        rw [h']
        cases lookupKey "name" kvs <;> exact ⟨_, rfl⟩
  obtain ⟨msg, hdes⟩ := hdes
  have key : dispatch s today (postJson body) =
      ({ status := 400, body := Json.null }, s) := by
    show create_accounts s today (postJson body) = _
    unfold create_accounts
    rw [show (postJson body).contentType = some "application/json" from rfl,
      check_content_type_json_ok]
    simp only [if_true]
    rw [show (postJson body).body = body from rfl, hdes]
  rw [key]
  exact ⟨rfl, rfl⟩

/-- C4 witness: POSTing a payload holding only `name` on the sample store
answers 400 and leaves the store unchanged. -/
theorem create_missing_field_400_witness :
    (dispatch sampleStore "2020-01-01"
      (postJson (Json.obj [("name", Json.str "not enough data")]))).1.status
      = 400 ∧
    (dispatch sampleStore "2020-01-01"
      (postJson (Json.obj [("name", Json.str "not enough data")]))).2
      = sampleStore :=
  create_missing_field_400 sampleStore "2020-01-01"
    (Json.obj [("name", Json.str "not enough data")]) (Or.inr rfl)

/-- C2: PUT /accounts/{id} with a body holding `name` and `email`: when the
id is absent the answer is 404 and the store is unchanged; when an account
with the id is stored the answer is 200 with the serialized updated record,
whose `id` is the original one while `name`, `email` and every other field
supplied in the payload are overwritten with the payload's values, the
record being persisted with `update()`. -/
theorem update_account_200_or_404 (s : Store) (today : String) (i : Nat)
    (ct : Option String) (body : Json) (n e : Json)
    (hn : body.lookup "name" = some n) (he : body.lookup "email" = some e) :
    (s.find i = none →
      (dispatch s today
        { method := Method.PUT, path := RoutePath.accountId i
        , contentType := ct, body := body }).1.status = 404 ∧
      (dispatch s today
        { method := Method.PUT, path := RoutePath.accountId i
        , contentType := ct, body := body }).2 = s) ∧
    (∀ a, s.find i = some a →
      (dispatch s today
        { method := Method.PUT, path := RoutePath.accountId i
        , contentType := ct, body := body }).1.status = 200 ∧
      ∃ u, a.deserialize body = Except.ok u ∧
        u.id = a.id ∧ u.name = n ∧ u.email = e ∧
        (∀ v, body.lookup "address" = some v → u.address = v) ∧
        (∀ v, body.lookup "phone_number" = some v → u.phone_number = v) ∧
        (∀ v, body.lookup "date_joined" = some v → u.date_joined = v) ∧
        (dispatch s today
          { method := Method.PUT, path := RoutePath.accountId i
          , contentType := ct, body := body }).1.body = u.serialize ∧
        (dispatch s today
          { method := Method.PUT, path := RoutePath.accountId i
          , contentType := ct, body := body }).2 = s.update u) := by
  cases body with
  | null => simp [Json.lookup] at hn
  | str x => simp [Json.lookup] at hn
  | num x => simp [Json.lookup] at hn
  | arr xs => simp [Json.lookup] at hn
  | obj kvs =>
    have hn' : lookupKey "name" kvs = some n := hn
    have he' : lookupKey "email" kvs = some e := he
    constructor
    · intro hfind
      have key : dispatch s today
          { method := Method.PUT, path := RoutePath.accountId i
          , contentType := ct, body := Json.obj kvs } =
          ({ status := 404, body := Json.null }, s) := by
        show update_accounts s i (Json.obj kvs) = _
        unfold update_accounts
        rw [hfind]
      rw [key]
      exact ⟨rfl, rfl⟩
    · intro a hfind
      have hdes : a.deserialize (Json.obj kvs) = Except.ok
          { a with
            name := n
          , email := e
          , address := (lookupKey "address" kvs).getD a.address
          , phone_number := (lookupKey "phone_number" kvs).getD a.phone_number
          , date_joined := (lookupKey "date_joined" kvs).getD a.date_joined }
          := by
        simp only [Account.deserialize]
        rw [hn', he']
      have key : dispatch s today
          { method := Method.PUT, path := RoutePath.accountId i
          , contentType := ct, body := Json.obj kvs } =
          ( { status := 200
            , body := Account.serialize
                { a with
                  name := n
                , email := e
                , address := (lookupKey "address" kvs).getD a.address
                , phone_number :=
                    (lookupKey "phone_number" kvs).getD a.phone_number
                , date_joined :=
                    (lookupKey "date_joined" kvs).getD a.date_joined } }
          , s.update
              { a with
                name := n
              , email := e
              , address := (lookupKey "address" kvs).getD a.address
              , phone_number :=
                  (lookupKey "phone_number" kvs).getD a.phone_number
              , date_joined :=
                  (lookupKey "date_joined" kvs).getD a.date_joined } ) := by
        show update_accounts s i (Json.obj kvs) = _
        simp only [update_accounts, hfind, hdes]
      rw [key]
      refine ⟨rfl, _, hdes, rfl, rfl, rfl, ?_, ?_, ?_, rfl, rfl⟩
      · intro v hv
        have hv' : lookupKey "address" kvs = some v := hv
        show (lookupKey "address" kvs).getD a.address = v
        rw [hv']
        rfl
      · intro v hv
        have hv' : lookupKey "phone_number" kvs = some v := hv
        show (lookupKey "phone_number" kvs).getD a.phone_number = v
        rw [hv']
        rfl
      · intro v hv
        have hv' : lookupKey "date_joined" kvs = some v := hv
        show (lookupKey "date_joined" kvs).getD a.date_joined = v
        rw [hv']
        rfl

/-- C2 witness: PUTting a payload renaming the sample account answers 200 on
the stored id 1, and PUT on the absent id 7 answers 404 with the store
unchanged. -/
theorem update_account_200_or_404_witness :
    (dispatch sampleStore "2020-01-01"
      { method := Method.PUT, path := RoutePath.accountId 1
      , contentType := none, body := samplePayload }).1.status = 200 ∧
    (dispatch sampleStore "2020-01-01"
      { method := Method.PUT, path := RoutePath.accountId 7
      , contentType := none, body := samplePayload }).1.status = 404 :=
  ⟨((update_account_200_or_404 sampleStore "2020-01-01" 1 none samplePayload
      (Json.str "John Doe") (Json.str "john@example.com") rfl rfl).2
      sampleAccount rfl).1,
   ((update_account_200_or_404 sampleStore "2020-01-01" 7 none samplePayload
      (Json.str "John Doe") (Json.str "john@example.com") rfl rfl).1
      rfl).1⟩

/-- C3: evaluating the source on a valid creation over the empty store: the
answer is 201 but the Location header is the placeholder `/` hard-coded in
`create_accounts` (the `url_for` line is commented out), not the read-by-id
route of the freshly assigned id 1. -/
theorem create_location_is_placeholder :
    (dispatch Store.empty "2020-01-01" (postJson samplePayload)).1.status
      = 201 ∧
    (dispatch Store.empty "2020-01-01" (postJson samplePayload)).1.location
      = some "/" :=
  ⟨rfl, rfl⟩

/-- C7: evaluating the source on DELETE /accounts/1 with account 1 stored:
no DELETE handler is defined on `/accounts/<int:account_id>`, so the
framework answers 405, the account stays stored, and the subsequent GET of
the same id answers 200, not 404. -/
theorem delete_route_unimplemented :
    (dispatch sampleStore "2020-01-01"
      { method := Method.DELETE, path := RoutePath.accountId 1
      , contentType := none, body := Json.null }).1.status = 405 ∧
    (dispatch sampleStore "2020-01-01"
      { method := Method.DELETE, path := RoutePath.accountId 1
      , contentType := none, body := Json.null }).2 = sampleStore ∧
    (dispatch
      (dispatch sampleStore "2020-01-01"
        { method := Method.DELETE, path := RoutePath.accountId 1
        , contentType := none, body := Json.null }).2
      "2020-01-01"
      { method := Method.GET, path := RoutePath.accountId 1
      , contentType := none, body := Json.null }).1.status = 200 :=
  ⟨rfl, rfl, rfl⟩

end AccountService
